import Mathlib

/-!
Verification of the bulk multi-target operation engine and the group
configuration-sync verifier of `framework/wazuh/agent.py`.

The Python module is shallowly embedded: every function that a claim touches
is translated into an executable Lean definition.  External collaborators
(the entity store, the filesystem, the transport to a live agent process and
the entity-operation primitives of `wazuh.core.core_agent`) are parameters of
the embedded functions; primitives whose bodies are not part of the source
slice are modelled from the specification and are marked as such in their
doc comments.
-/

/-- The two exception classes of `wazuh.exception` that derive from
`WazuhException`: `WazuhError` (domain error, `err`) and
`WazuhInternalError` (`internalErr`).  Both carry a stable numeric code and a
message. -/
inductive WazuhExc : Type
  | err (code : Nat) (msg : String)
  | internalErr (code : Nat) (msg : String)
deriving DecidableEq, Repr

/-- Python-level exceptions that the embedded code can raise: the
`WazuhException` family, plus the builtin exception classes the source
distinguishes in its `except` clauses (`IOError`, `KeyError`, `IndexError`)
and a catch-all for any other raw exception. -/
inductive PyExc : Type
  | wazuh (e : WazuhExc)
  | ioErr (msg : String)
  | keyErr (msg : String)
  | indexErr (msg : String)
  | other (msg : String)
deriving DecidableEq, Repr

/-- Stable code of a `WazuhException` (`.code` attribute). -/
def WazuhExc.code : WazuhExc → Nat
  | .err c _ => c
  | .internalErr c _ => c

/-- Message of a `WazuhException` (`.message` attribute). -/
def WazuhExc.message : WazuhExc → String
  | .err _ m => m
  | .internalErr _ m => m

/-- Rendering `str(e)` of an arbitrary Python exception. -/
def PyExc.message : PyExc → String
  | .wazuh e => e.message
  | .ioErr m => m
  | .keyErr m => m
  | .indexErr m => m
  | .other m => m

/-- Whether an exception is an instance of `WazuhException` (what the
per-target `except WazuhException` clauses of the bulk loops catch). -/
def PyExc.isWazuh : PyExc → Bool
  | .wazuh _ => true
  | _ => false

/-- An entry of `failed_items`, as produced by
`wazuh.exception.create_exception_dic`: the target identifier together with
the exception's stable code and message.  Modelled from the spec: failed
entries are `(target identifier, error code, error message)` tuples (§3);
`create_exception_dic` itself lives outside the source slice. -/
structure FailedItem : Type where
  id : String
  code : Nat
  message : String
deriving DecidableEq, Repr

/-- Embedding of `create_exception_dic(id, e)`. -/
def create_exception_dic (id : String) (e : WazuhExc) : FailedItem :=
  ⟨id, e.code, e.message⟩

/-- A computation either returned normally or raised only exceptions of the
`WazuhException` family (no raw builtin exception escaped). -/
def exNonRaw {α : Type} : Except PyExc α → Bool
  | .ok _ => true
  | .error e => e.isWazuh

/-- Did the computation return normally? -/
def exIsOk {α : Type} : Except PyExc α → Bool
  | .ok _ => true
  | .error _ => false

/-- The `WazuhException` raised by a failed computation (junk default when the
computation succeeded or raised a raw exception). -/
def wazuhOf {α : Type} : Except PyExc α → WazuhExc
  | .error (.wazuh e) => e
  | _ => .err 0 ""

/-- Aggregated result of a bulk operation over agents, as returned by the
functions of `agent.py`: `affected_items`, `failed_items` and the three-tier
`str_priority` message list. -/
structure BulkResult : Type where
  affected_items : List String
  failed_items : List FailedItem
  str_priority : List String
deriving DecidableEq, Repr

/-- The common per-target loop of the bulk operations:

    for t in targs:
        try:
            op(t)
            affected.append(t)
        except WazuhException as e:
            failed.append(create_exception_dic(t, e))

A `WazuhException` raised by `op` becomes a `failed_items` entry; any other
exception is not caught and aborts the whole call. -/
def bulkLoop (op : String → Except PyExc Unit) :
    List String → Except PyExc (List String × List FailedItem)
  | [] => .ok ([], [])
  | t :: rest =>
    match op t with
    | .ok _ =>
      match bulkLoop op rest with
      | .ok (aff, fl) => .ok (t :: aff, fl)
      | .error e => .error e
    | .error (.wazuh e) =>
      match bulkLoop op rest with
      | .ok (aff, fl) => .ok (aff, create_exception_dic t e :: fl)
      | .error e' => .error e'
    | .error e => .error e

/-- Registry text of error 1703 (reserved identifier "000"); the registry
itself (`wazuh.exception.ERRORS`) is outside the source slice. -/
def reserved_msg : String := "Action not available for Manager (agent 000)"

/-- Registry text of error 1710 (group does not exist). -/
def msg_1710 : String := "The group does not exist"

/-- Registry text of error 1734 (agent is not a member of the group). -/
def msg_1734 : String := "Agent does not belong to the specified group"

/-- Registry text of error 1740 (agent is not active). -/
def msg_1740 : String := "Agent is not active"

/-! ### SHA-256 (`hashlib.sha256`), executable

`get_agents_sync_group` derives the multi-group token with
`hashlib.sha256(s.encode()).hexdigest()[:8]`.  The digest is implemented
here in full over `Nat` bytes; the round and initial-hash constants are
derived, as in FIPS 180-4, from the fractional parts of the cube and square
roots of the first primes. -/

/-- UTF-8 encoding of one code point (`str.encode()` is UTF-8 in Python 3). -/
def utf8Bytes (c : Char) : List Nat :=
  let n := c.toNat
  if n < 128 then [n]
  else if n < 2048 then [192 + n / 64, 128 + n % 64]
  else if n < 65536 then [224 + n / 4096, 128 + n / 64 % 64, 128 + n % 64]
  else [240 + n / 262144, 128 + n / 4096 % 64, 128 + n / 64 % 64, 128 + n % 64]

/-- UTF-8 bytes of a string. -/
def strBytes (s : String) : List Nat :=
  s.data.flatMap utf8Bytes

/-- Right rotation of a 32-bit word held in a `Nat`. -/
def rotr32 (n x : Nat) : Nat :=
  ((x >>> n) ||| (x <<< (32 - n))) % 4294967296

/-- Bitwise complement of a 32-bit word held in a `Nat`. -/
def not32 (x : Nat) : Nat := x ^^^ 4294967295

/-- Integer cube root by binary descent over `k` bits. -/
def cbrtAux (n : Nat) : Nat → Nat → Nat
  | 0, r => r
  | k + 1, r =>
    let c := r + 2 ^ k
    if c * c * c ≤ n then cbrtAux n k c else cbrtAux n k r

/-- Integer cube root of numbers below `2 ^ 120`. -/
def cbrt (n : Nat) : Nat := cbrtAux n 40 0

/-- The first 64 primes, as listed in FIPS 180-4 for the SHA-256 constants. -/
def sha256Primes : List Nat :=
  [2, 3, 5, 7, 11, 13, 17, 19, 23, 29, 31, 37, 41, 43, 47, 53,
   59, 61, 67, 71, 73, 79, 83, 89, 97, 101, 103, 107, 109, 113, 127, 131,
   137, 139, 149, 151, 157, 163, 167, 173, 179, 181, 191, 193, 197, 199, 211, 223,
   227, 229, 233, 239, 241, 251, 257, 263, 269, 271, 277, 281, 283, 293, 307, 311]

/-- Round constants: first 32 bits of the fractional parts of the cube roots
of the first 64 primes. -/
def sha256K : List Nat :=
  sha256Primes.map (fun p => cbrt (p * 2 ^ 96) % 4294967296)

/-- Initial hash value: first 32 bits of the fractional parts of the square
roots of the first 8 primes. -/
def sha256H0 : List Nat :=
  (sha256Primes.take 8).map (fun p => Nat.sqrt (p * 2 ^ 64) % 4294967296)

/-- Big-endian byte expansion of `n` on `k` bytes. -/
def beBytes (k n : Nat) : List Nat :=
  (List.range k).reverse.map (fun i => n / 256 ^ i % 256)

/-- SHA-256 padding: append `0x80`, zeros up to 56 bytes mod 64, and the
bit length on 8 big-endian bytes. -/
def sha256Pad (msg : List Nat) : List Nat :=
  let zeros := (119 - msg.length % 64) % 64
  msg ++ 128 :: List.replicate zeros 0 ++ beBytes 8 (msg.length * 8)

/-- Split a byte list into 64-byte chunks. -/
def toChunks (l : List Nat) : List (List Nat) :=
  if l = [] then [] else l.take 64 :: toChunks (l.drop 64)
  termination_by l.length
  decreasing_by
    simp only [List.length_drop]
    rename_i h
    have : 0 < l.length := List.length_pos.mpr h
    omega

/-- The 16 initial 32-bit words of a 64-byte chunk (big-endian). -/
def chunkWords (chunk : List Nat) : List Nat :=
  (List.range 16).map (fun i =>
    chunk.getD (4 * i) 0 * 16777216 + chunk.getD (4 * i + 1) 0 * 65536 +
      chunk.getD (4 * i + 2) 0 * 256 + chunk.getD (4 * i + 3) 0)

/-- Message-schedule function σ0. -/
def ssig0 (x : Nat) : Nat := rotr32 7 x ^^^ rotr32 18 x ^^^ (x >>> 3)

/-- Message-schedule function σ1. -/
def ssig1 (x : Nat) : Nat := rotr32 17 x ^^^ rotr32 19 x ^^^ (x >>> 10)

/-- Compression function Σ0. -/
def bsig0 (x : Nat) : Nat := rotr32 2 x ^^^ rotr32 13 x ^^^ rotr32 22 x

/-- Compression function Σ1. -/
def bsig1 (x : Nat) : Nat := rotr32 6 x ^^^ rotr32 11 x ^^^ rotr32 25 x

/-- Extend the 16 chunk words to the 64-entry message schedule. -/
def extendW (w : List Nat) : List Nat :=
  (List.range 48).foldl
    (fun w _ =>
      let n := w.length
      w ++ [(ssig1 (w.getD (n - 2) 0) + w.getD (n - 7) 0 +
             ssig0 (w.getD (n - 15) 0) + w.getD (n - 16) 0) % 4294967296])
    w

/-- Working state of the SHA-256 compression loop. -/
structure Sha256State : Type where
  a : Nat
  b : Nat
  c : Nat
  d : Nat
  e : Nat
  f : Nat
  g : Nat
  h : Nat
deriving Repr

/-- One round of the compression loop, for one `(k, w)` pair. -/
def sha256Round (st : Sha256State) (kw : Nat × Nat) : Sha256State :=
  let ch := (st.e &&& st.f) ^^^ (not32 st.e &&& st.g)
  let maj := (st.a &&& st.b) ^^^ (st.a &&& st.c) ^^^ (st.b &&& st.c)
  let t1 := st.h + bsig1 st.e + ch + kw.1 + kw.2
  let t2 := bsig0 st.a + maj
  ⟨(t1 + t2) % 4294967296, st.a, st.b, st.c,
    (st.d + t1) % 4294967296, st.e, st.f, st.g⟩

/-- Process one 64-byte chunk. -/
def sha256Chunk (hs : List Nat) (chunk : List Nat) : List Nat :=
  let st0 : Sha256State :=
    ⟨hs.getD 0 0, hs.getD 1 0, hs.getD 2 0, hs.getD 3 0,
     hs.getD 4 0, hs.getD 5 0, hs.getD 6 0, hs.getD 7 0⟩
  let st := (sha256K.zip (extendW (chunkWords chunk))).foldl sha256Round st0
  [(hs.getD 0 0 + st.a) % 4294967296, (hs.getD 1 0 + st.b) % 4294967296,
   (hs.getD 2 0 + st.c) % 4294967296, (hs.getD 3 0 + st.d) % 4294967296,
   (hs.getD 4 0 + st.e) % 4294967296, (hs.getD 5 0 + st.f) % 4294967296,
   (hs.getD 6 0 + st.g) % 4294967296, (hs.getD 7 0 + st.h) % 4294967296]

/-- SHA-256 digest (32 bytes) of a byte list. -/
def sha256Bytes (msg : List Nat) : List Nat :=
  ((toChunks (sha256Pad msg)).foldl sha256Chunk sha256H0).flatMap (beBytes 4)

/-- Lower-case hexadecimal digit. -/
def hexDigit (n : Nat) : Char :=
  "0123456789abcdef".toList.getD n '0'

/-- Lower-case hexadecimal rendering of a byte list. -/
def bytesToHex (bs : List Nat) : String :=
  String.mk (bs.flatMap (fun b => [hexDigit (b / 16), hexDigit (b % 16)]))

/-- Embedding of `hashlib.sha256(s.encode()).hexdigest()`. -/
def sha256Hex (s : String) : String :=
  bytesToHex (sha256Bytes (strBytes s))

/-! ### Embedded operations of `framework/wazuh/agent.py`

External collaborators are parameters: store queries arrive as already-run
result lists, entity-operation primitives as functions into
`Except PyExc`, the filesystem as a partial map from paths to contents. -/

/-- Embedding of `os.path.join` for one relative component. -/
def pathJoin (a b : String) : String := a ++ "/" ++ b

/-- Modelled from the spec: `Agent.restart` (in `wazuh.core.core_agent`,
outside the source slice) rejects the reserved identifier "000" with the
reserved-identifier error 1703 before attempting any side effect (spec §4.1);
otherwise it delegates the restart command to the external transport. -/
def Agent.restart (transport : String → Except PyExc Unit)
    (agent_id : String) : Except PyExc Unit :=
  if agent_id = "000" then .error (.wazuh (.err 1703 reserved_msg))
  else transport agent_id

/-- Modelled from the spec: `Agent.unset_single_group_agent` (in
`wazuh.core.core_agent`, outside the source slice) rejects the reserved
identifier "000" with error 1703 before attempting any side effect
(spec §4.1); otherwise it delegates the membership removal to the store. -/
def Agent.unset_single_group_agent
    (unset : String → String → Except PyExc Unit)
    (agent_id group_id : String) : Except PyExc Unit :=
  if agent_id = "000" then .error (.wazuh (.err 1703 reserved_msg))
  else unset agent_id group_id

/-- Raw behaviour of an entity-operation primitive on one target, before the
primitive's own exception handling: normal return, a recognized
`WazuhException`, or an unexpected raw failure. -/
inductive RawOutcome (α : Type) : Type
  | ok (v : α)
  | wazuhExc (e : WazuhExc)
  | unexpected (msg : String)

/-- Modelled from the spec: every entity-operation primitive classifies its
failures; unknown or unexpected failures are wrapped into the generic
internal-error kind with the original message preserved as diagnostic
context, rather than propagated raw (spec §4.1, §7, §9).  The concrete
registry code of the generic internal error differs per operation and is the
`internal_code` parameter. -/
def wrap_primitive {α : Type} (internal_code : Nat)
    (behaviour : String → RawOutcome α) (id : String) : Except PyExc α :=
  match behaviour id with
  | .ok v => .ok v
  | .wazuhExc e => .error (.wazuh e)
  | .unexpected m => .error (.wazuh (.internalErr internal_code m))

/-- The three `str_priority` messages of `restart_agents`. -/
def restart_messages : List String :=
  ["Restart command sent to all agents",
   "Could not send command to some agents",
   "Could not send command to any agent"]

/-- Embedding of `restart_agents(agent_list)`: the common bulk loop over
`Agent(agent_id).restart()` assembled with the three messages. -/
def restart_agents (transport : String → Except PyExc Unit)
    (agent_list : List String) : Except PyExc BulkResult :=
  match bulkLoop (Agent.restart transport) agent_list with
  | .ok (aff, fl) => .ok ⟨aff, fl, restart_messages⟩
  | .error e => .error e

/-- Per-target body of the `delete_agents` loop: the "000" guard, the load of
the agent record, the eligibility check against the pre-computed
`id_purgeable_agents` list (error 1731), then `Agent.remove`. -/
def delete_agents_op (load : String → Except PyExc Unit)
    (remove_agent : String → Bool → Bool → Except PyExc Unit)
    (purgeable : List String) (backup purge : Bool)
    (status older_than : String) (agent_id : String) : Except PyExc Unit :=
  if agent_id = "000" then .error (.wazuh (.err 1703 reserved_msg))
  else
    match load agent_id with
    | .error e => .error e
    | .ok _ =>
      if purgeable.contains agent_id = false then
        .error (.wazuh (.err 1731
          ("The agent has a status different to '" ++ status ++
           "' or the specified time frame 'older_than " ++ older_than ++
           "' does not apply.")))
      else remove_agent agent_id backup purge

/-- The three `str_priority` messages of `delete_agents`. -/
def delete_agents_messages : List String :=
  ["All selected agents were deleted",
   "Some agents were not deleted",
   "No agents were deleted"]

/-- Embedding of `delete_agents(agent_list, backup, purge, status,
older_than)`.  The
eligibility query (`WazuhDBQueryAgents` over `older_than`/`status`/`id`) is
run once before the loop; its result arrives as the `purgeable` list of
identifiers.  `load` is `Agent.load_info_from_db`, `remove_agent` is
`Agent.remove` (both external primitives). -/
def delete_agents (load : String → Except PyExc Unit)
    (remove_agent : String → Bool → Bool → Except PyExc Unit)
    (purgeable : List String) (backup purge : Bool)
    (status older_than : String)
    (agent_list : List String) : Except PyExc BulkResult :=
  match bulkLoop
      (delete_agents_op load remove_agent purgeable backup purge status older_than)
      agent_list with
  | .ok (aff, fl) => .ok ⟨aff, fl, delete_agents_messages⟩
  | .error e => .error e

/-- Per-target body of the `remove_agents_from_group` loop: targets of the
input list that are not in the queried member set fail with 1703 (for "000")
or 1734 (not a member); members go through
`Agent.unset_single_group_agent`. -/
def remove_from_group_op (unset : String → String → Except PyExc Unit)
    (agent_list agents_in_group : List String) (g0 : String)
    (agent_id : String) : Except PyExc Unit :=
  if agent_list.contains agent_id && !agents_in_group.contains agent_id then
    if agent_id = "000" then .error (.wazuh (.err 1703 reserved_msg))
    else .error (.wazuh (.err 1734 msg_1734))
  else Agent.unset_single_group_agent unset agent_id g0

/-- The three `str_priority` messages of `remove_agents_from_group`. -/
def remove_from_group_messages (g0 : String) : List String :=
  ["All selected agents were removed from " ++ g0,
   "Some agents were not removed from " ++ g0,
   "No agents removed from " ++ g0]

/-- Embedding of `remove_agents_from_group(group_id, agent_list)`.
Here `group_id` arrives
from the decorator as a one-element list and only `group_id[0]` is used; the
existence of the group is checked once, failing the whole call with 1710.
The membership query (`WazuhDBQueryAgents` with `group=group_id[0]` over
`agent_list`) is run once; its result arrives as `agents_in_group`. -/
def remove_agents_from_group (group_exists : String → Bool)
    (agents_in_group : List String)
    (unset : String → String → Except PyExc Unit)
    (group_id : List String)
    (agent_list : List String) : Except PyExc BulkResult :=
  match group_id with
  | [] => .error (.indexErr "list index out of range")
  | g0 :: _ =>
    if group_exists g0 = false then .error (.wazuh (.err 1710 msg_1710))
    else
      match bulkLoop (remove_from_group_op unset agent_list agents_in_group g0)
          agent_list with
      | .ok (aff, fl) => .ok ⟨aff, fl, remove_from_group_messages g0⟩
      | .error e => .error e

/-- Per-target body of the `remove_agents_from_all_groups` loop: the "000"
guard, the existence check (`get_basic_information`, skipped under `force`),
then the reset of the assignment file to the `default` group. -/
def remove_all_groups_op (check_agent : String → Except PyExc Unit)
    (set_agent_group_file : String → String → Except PyExc Unit)
    (force : Bool) (agent_id : String) : Except PyExc Unit :=
  if agent_id = "000" then .error (.wazuh (.err 1703 reserved_msg))
  else if force then set_agent_group_file agent_id "default"
  else
    match check_agent agent_id with
    | .error e => .error e
    | .ok _ => set_agent_group_file agent_id "default"

/-- The three `str_priority` messages of `remove_agents_from_all_groups`. -/
def remove_all_groups_messages : List String :=
  ["All selected agents were removed from all groups. Group reverted to default.",
   "Some agents were not removed from from all groups. Affected agents group reverted to default",
   "No agents removed from from all groups"]

/-- Embedding of `remove_agents_from_all_groups(agent_list, force)`. -/
def remove_agents_from_all_groups (check_agent : String → Except PyExc Unit)
    (set_agent_group_file : String → String → Except PyExc Unit)
    (force : Bool) (agent_list : List String) : Except PyExc BulkResult :=
  match bulkLoop (remove_all_groups_op check_agent set_agent_group_file force)
      agent_list with
  | .ok (aff, fl) => .ok ⟨aff, fl, remove_all_groups_messages⟩
  | .error e => .error e

/-- Numeric sort key used by `sorted(affected_agents, key=int)`; agent
identifiers are fixed-width numeric strings. -/
def intKey (s : String) : Nat := s.toNat?.getD 0

/-- Insertion into a list sorted by `intKey`. -/
def insertByKey (x : String) : List String → List String
  | [] => [x]
  | y :: ys => if intKey x ≤ intKey y then x :: y :: ys else y :: insertByKey x ys

/-- Sorting by `intKey`.  Python sorts the accumulated set with
`sorted(.., key=int)`; the set's iteration order is arbitrary, so only the
key order of the output is specified and an insertion sort models it. -/
def sortByKey (l : List String) : List String :=
  l.foldr insertByKey []

/-- Result of `delete_groups`: a bulk result extended with the
`affected_agents` list. -/
structure DeleteGroupsResult : Type where
  affected_items : List String
  failed_items : List FailedItem
  affected_agents : List String
  str_priority : List String
deriving DecidableEq, Repr

/-- The per-group loop of `delete_groups`.  `delete_single_group` returns the
`affected_items` of the deleted group (the agents whose membership changed);
on success the group is appended to `affected_items` and its agents
accumulated, then `Agent.remove_multi_group` runs (the source passes it
`set(group_id.lower())`; only its success or failure matters here).  Either
primitive failing with a `WazuhException` yields a `failed_items` entry. -/
def deleteGroupsLoop (delete_single_group : String → Except PyExc (List String))
    (remove_multi_group : String → Except PyExc Unit) :
    List String → Except PyExc (List String × List FailedItem × List String)
  | [] => .ok ([], [], [])
  | g :: rest =>
    match delete_single_group g with
    | .error (.wazuh e) =>
      match deleteGroupsLoop delete_single_group remove_multi_group rest with
      | .ok (aff, fl, ags) => .ok (aff, create_exception_dic g e :: fl, ags)
      | .error e' => .error e'
    | .error e => .error e
    | .ok removed =>
      match remove_multi_group g with
      | .ok _ =>
        match deleteGroupsLoop delete_single_group remove_multi_group rest with
        | .ok (aff, fl, ags) => .ok (g :: aff, fl, removed ++ ags)
        | .error e' => .error e'
      | .error (.wazuh e) =>
        match deleteGroupsLoop delete_single_group remove_multi_group rest with
        | .ok (aff, fl, ags) =>
          .ok (g :: aff, create_exception_dic g e :: fl, removed ++ ags)
        | .error e' => .error e'
      | .error e => .error e

/-- The three `str_priority` messages of `delete_groups`. -/
def delete_groups_messages : List String :=
  ["All selected groups were deleted",
   "Some groups were not deleted",
   "No groups were deleted"]

/-- Embedding of `delete_groups(group_list)`: the per-group loop, then
`affected_agents`
as the deduplicated accumulated set sorted by numeric identifier. -/
def delete_groups (delete_single_group : String → Except PyExc (List String))
    (remove_multi_group : String → Except PyExc Unit)
    (group_list : List String) : Except PyExc DeleteGroupsResult :=
  match deleteGroupsLoop delete_single_group remove_multi_group group_list with
  | .ok (aff, fl, ags) =>
    .ok ⟨aff, fl, sortByKey ags.dedup, delete_groups_messages⟩
  | .error e => .error e

/-- Modelled from the spec: the API post-processing layer consuming
`str_priority` selects exactly one of the three messages: `failed` empty →
first ("all succeeded"); `failed` non-empty and `affected` non-empty →
second ("partial"); `affected` empty → third ("all failed") (spec §4.1).
The selection itself is outside the source slice. -/
def select_summary (affected : List String) (failed : List FailedItem)
    (msgs : List String) : String :=
  if failed.isEmpty then msgs.getD 0 ""
  else if affected.isEmpty then msgs.getD 2 ""
  else msgs.getD 1 ""

/-! ### The group sync verifier and the first-element-only functions -/

/-- The fields of the basic agent record that `get_agents_sync_group` reads:
the ordered stored group membership and the merged-configuration checksum the
agent last reported.  `Agent.get_basic_information` returns a dict; the two
keys used here are modelled as present fields. -/
structure AgentInfo : Type where
  group : List String
  mergedSum : String
deriving DecidableEq, Repr

/-- The multi-group token: the stored group names joined with "," in the
agent's stored order, hashed with SHA-256, hex digest truncated to its first
8 characters (`hashlib.sha256(mg.encode()).hexdigest()[:8]`). -/
def multi_group_token (groups : List String) : String :=
  (sha256Hex (String.intercalate "," groups)).take 8

/-- Lines 623-628 of the source: the path of the merged-configuration
artifact for an agent's membership.  More than one group resolves to the
multi-group directory named by the token; otherwise `group[0]` resolves to
the group's own directory, raising `IndexError` on an empty membership
list. -/
def resolve_merged_path (shared_path multi_groups_path : String)
    (info : AgentInfo) : Except PyExc String :=
  if 1 < info.group.length then
    .ok (pathJoin (pathJoin multi_groups_path (multi_group_token info.group))
          "merged.mg")
  else
    match info.group with
    | g :: _ => .ok (pathJoin (pathJoin shared_path g) "merged.mg")
    | [] => .error (.indexErr "list index out of range")

/-- Embedding of `wazuh.utils.md5(path)`: reads the file and digests its
content; a
missing or unreadable file raises `IOError`.  The filesystem `fs` and the
content digest `md5fn` are external collaborators (spec §6). -/
def md5file (fs : String → Option String) (md5fn : String → String)
    (p : String) : Except PyExc String :=
  match fs p with
  | some content => .ok (md5fn content)
  | none => .error (.ioErr p)

/-- The body of the `try` block of `get_agents_sync_group`: load the basic
record, resolve the merged-artifact path, digest it, compare with the
agent-reported checksum. -/
def sync_try_body (get_basic_information : String → Except PyExc AgentInfo)
    (fs : String → Option String) (md5fn : String → String)
    (shared_path multi_groups_path : String) (agent_id : String) :
    Except PyExc Bool :=
  match get_basic_information agent_id with
  | .error e => .error e
  | .ok info =>
    match resolve_merged_path shared_path multi_groups_path info with
    | .error e => .error e
    | .ok p =>
      match md5file fs md5fn p with
      | .error e => .error e
      | .ok digest => .ok (digest == info.mergedSum)

/-- The `except` chain of `get_agents_sync_group`: `IOError` and `KeyError`
soften to `synced = False`; `WazuhError` re-raises; anything else (raw
exceptions and `WazuhInternalError` alike) is re-raised wrapped as
`WazuhInternalError(1739)` with the original message. -/
def sync_handler (r : Except PyExc Bool) : Except PyExc Bool :=
  match r with
  | .ok v => .ok v
  | .error (.ioErr _) => .ok false
  | .error (.keyErr _) => .ok false
  | .error (.wazuh (.err c m)) => .error (.wazuh (.err c m))
  | .error e => .error (.wazuh (.internalErr 1739 e.message))

/-- Embedding of `get_agents_sync_group(agent_list)`: acts on
`agent_list[0]` only,
rejects "000" with 1703 outside the `try` block, and returns the dict
`{'synced': b}` (here just `b`) through the handler chain. -/
def get_agents_sync_group (get_basic_information : String → Except PyExc AgentInfo)
    (fs : String → Option String) (md5fn : String → String)
    (shared_path multi_groups_path : String)
    (agent_list : List String) : Except PyExc Bool :=
  match agent_list with
  | [] => .error (.indexErr "list index out of range")
  | agent_id :: _ =>
    if agent_id = "000" then .error (.wazuh (.err 1703 reserved_msg))
    else sync_handler (sync_try_body get_basic_information fs md5fn
          shared_path multi_groups_path agent_id)

/-- Embedding of `upgrade_agents(agent_list, ...)`: acts on `agent_list[0]`
only and
delegates to `Agent.upgrade` with `force=True iff int(force) == 1`. -/
def upgrade_agents
    (upgrade : String → Option String → Option String → Bool → Option Nat → Bool → Except PyExc String)
    (wpk_repo version : Option String) (force : Nat) (chunk_size : Option Nat)
    (use_http : Bool) (agent_list : List String) : Except PyExc String :=
  match agent_list with
  | [] => .error (.indexErr "list index out of range")
  | agent_id :: _ =>
    upgrade agent_id wpk_repo version (force == 1) chunk_size use_http

/-- Embedding of `get_upgrade_result(agent_list, timeout)`: acts on
`agent_list[0]`
only. -/
def get_upgrade_result (upgrade_result : String → Nat → Except PyExc String)
    (timeout : Nat) (agent_list : List String) : Except PyExc String :=
  match agent_list with
  | [] => .error (.indexErr "list index out of range")
  | agent_id :: _ => upgrade_result agent_id timeout

/-- The agent-record field `get_agents_config` reads after
`load_info_from_db`. -/
structure AgentRecord : Type where
  status : String
deriving DecidableEq, Repr

/-- Embedding of `get_agents_config(agent_list, component, config)`: acts on
`agent_list[0]` only; a non-active agent raises 1740, otherwise the
configuration is fetched from the live agent. -/
def get_agents_config (load : String → Except PyExc AgentRecord)
    (getconfig : String → String → String → Except PyExc String)
    (component config : String) (agent_list : List String) :
    Except PyExc String :=
  match agent_list with
  | [] => .error (.indexErr "list index out of range")
  | agent_id :: _ =>
    match load agent_id with
    | .error e => .error e
    | .ok r =>
      if r.status ≠ "active" then .error (.wazuh (.err 1740 msg_1740))
      else getconfig agent_id component config

/-- The agent list returned by a successful `delete_single_group` call, and
the empty list for a failed one. -/
def okListOf : Except PyExc (List String) → List String
  | .ok v => v
  | .error _ => []

/-- The `failed_items` entry that one group contributes in the
`delete_groups` loop: its `delete_single_group` exception when that call
fails, otherwise its `remove_multi_group` exception when that call fails,
otherwise nothing. -/
def group_fail_entry (delete_single_group : String → Except PyExc (List String))
    (remove_multi_group : String → Except PyExc Unit) (g : String) :
    Option FailedItem :=
  match delete_single_group g with
  | .error (.wazuh e) => some (create_exception_dic g e)
  | .error _ => none
  | .ok _ =>
    match remove_multi_group g with
    | .error (.wazuh e) => some (create_exception_dic g e)
    | _ => none

/-! ### Helper lemmas about the bulk loop -/

lemma bulkLoop_eq (op : String → Except PyExc Unit) (l : List String)
    (h : ∀ id ∈ l, exNonRaw (op id) = true) :
    bulkLoop op l = .ok
      (l.filter (fun id => exIsOk (op id)),
       (l.filter (fun id => !exIsOk (op id))).map
         (fun id => create_exception_dic id (wazuhOf (op id)))) := by
  induction l with
  | nil => simp [bulkLoop]
  | cons t rest ih =>
    have ht := h t (List.mem_cons_self t rest)
    have hrest : ∀ id ∈ rest, exNonRaw (op id) = true :=
      fun id hid => h id (List.mem_cons_of_mem t hid)
    cases hop : op t with
    | ok v =>
      simp [bulkLoop, hop, ih hrest, List.filter_cons, exIsOk]
    | error e =>
      cases e with
      | wazuh w =>
        simp [bulkLoop, hop, ih hrest, List.filter_cons, exIsOk, wazuhOf]
      | ioErr m => simp [hop, exNonRaw, PyExc.isWazuh] at ht
      | keyErr m => simp [hop, exNonRaw, PyExc.isWazuh] at ht
      | indexErr m => simp [hop, exNonRaw, PyExc.isWazuh] at ht
      | other m => simp [hop, exNonRaw, PyExc.isWazuh] at ht

lemma failed_ids_eq (l : List String) (p : String → Bool)
    (wz : String → WazuhExc) :
    (((l.filter (fun id => !p id)).map
        (fun id => create_exception_dic id (wz id))).map FailedItem.id)
      = l.filter (fun id => !p id) := by
  simp [List.map_map, Function.comp_def, create_exception_dic]

lemma covers_union (l : List String) (p : String → Bool)
    (wz : String → WazuhExc) (x : String) :
    (x ∈ l.filter p ∨
      x ∈ (((l.filter (fun id => !p id)).map
        (fun id => create_exception_dic id (wz id))).map FailedItem.id))
      ↔ x ∈ l := by
  rw [failed_ids_eq]
  simp only [List.mem_filter]
  cases hpx : p x <;> simp [hpx]

lemma covers_disjoint (l : List String) (p : String → Bool)
    (wz : String → WazuhExc) (x : String) (hx : x ∈ l.filter p) :
    x ∉ (((l.filter (fun id => !p id)).map
      (fun id => create_exception_dic id (wz id))).map FailedItem.id) := by
  rw [failed_ids_eq]
  simp only [List.mem_filter] at hx ⊢
  intro hc
  rw [hx.2] at hc
  simp at hc

lemma mem_failed_of_op_err (l : List String) (p : String → Bool)
    (wz : String → WazuhExc) (id : String) (hid : id ∈ l)
    (hp : p id = false) :
    create_exception_dic id (wz id) ∈
      (l.filter (fun id => !p id)).map
        (fun id => create_exception_dic id (wz id)) := by
  exact List.mem_map_of_mem _ (List.mem_filter.mpr ⟨hid, by simp [hp]⟩)

lemma not_mem_affected_of_op_err (l : List String) (p : String → Bool)
    (id : String) (hp : p id = false) : id ∉ l.filter p := by
  intro hc
  rw [List.mem_filter, hp] at hc
  exact absurd hc.2 (by simp)

/-! ### Per-operation computation lemmas -/

lemma restart_op_nonRaw (transport : String → Except PyExc Unit)
    (h : ∀ id, exNonRaw (transport id) = true) (id : String) :
    exNonRaw (Agent.restart transport id) = true := by
  unfold Agent.restart
  split
  · rfl
  · exact h id

lemma restart_agents_eq (transport : String → Except PyExc Unit)
    (l : List String) (h : ∀ id, exNonRaw (transport id) = true) :
    restart_agents transport l = .ok
      ⟨l.filter (fun id => exIsOk (Agent.restart transport id)),
       (l.filter (fun id => !exIsOk (Agent.restart transport id))).map
         (fun id => create_exception_dic id (wazuhOf (Agent.restart transport id))),
       restart_messages⟩ := by
  unfold restart_agents
  rw [bulkLoop_eq _ _ (fun id _ => restart_op_nonRaw transport h id)]

lemma delete_op_nonRaw (load : String → Except PyExc Unit)
    (remove_agent : String → Bool → Bool → Except PyExc Unit)
    (purgeable : List String) (backup purge : Bool) (status older_than : String)
    (hl : ∀ id, exNonRaw (load id) = true)
    (hr : ∀ id, exNonRaw (remove_agent id backup purge) = true) (id : String) :
    exNonRaw (delete_agents_op load remove_agent purgeable backup purge
      status older_than id) = true := by
  unfold delete_agents_op
  split
  · rfl
  · cases hld : load id with
    | error e =>
      have := hl id
      rw [hld] at this
      simpa [hld] using this
    | ok v =>
      simp only [hld]
      split
      · rfl
      · exact hr id

lemma delete_agents_eq (load : String → Except PyExc Unit)
    (remove_agent : String → Bool → Bool → Except PyExc Unit)
    (purgeable : List String) (backup purge : Bool) (status older_than : String)
    (l : List String)
    (hl : ∀ id, exNonRaw (load id) = true)
    (hr : ∀ id, exNonRaw (remove_agent id backup purge) = true) :
    delete_agents load remove_agent purgeable backup purge status older_than l
      = .ok
      ⟨l.filter (fun id => exIsOk (delete_agents_op load remove_agent purgeable
          backup purge status older_than id)),
       (l.filter (fun id => !exIsOk (delete_agents_op load remove_agent purgeable
          backup purge status older_than id))).map
         (fun id => create_exception_dic id (wazuhOf (delete_agents_op load
            remove_agent purgeable backup purge status older_than id))),
       delete_agents_messages⟩ := by
  unfold delete_agents
  rw [bulkLoop_eq _ _ (fun id _ => delete_op_nonRaw load remove_agent purgeable
    backup purge status older_than hl hr id)]

lemma rfg_op_nonRaw (unset : String → String → Except PyExc Unit)
    (agent_list agents_in_group : List String) (g0 : String)
    (hu : ∀ id g, exNonRaw (unset id g) = true) (id : String) :
    exNonRaw (remove_from_group_op unset agent_list agents_in_group g0 id)
      = true := by
  unfold remove_from_group_op
  split
  · split <;> rfl
  · unfold Agent.unset_single_group_agent
    split
    · rfl
    · exact hu id g0

lemma remove_agents_from_group_eq (group_exists : String → Bool)
    (agents_in_group : List String)
    (unset : String → String → Except PyExc Unit)
    (g0 : String) (gs : List String) (l : List String)
    (hg : group_exists g0 = true)
    (hu : ∀ id g, exNonRaw (unset id g) = true) :
    remove_agents_from_group group_exists agents_in_group unset (g0 :: gs) l
      = .ok
      ⟨l.filter (fun id => exIsOk (remove_from_group_op unset l agents_in_group g0 id)),
       (l.filter (fun id => !exIsOk (remove_from_group_op unset l agents_in_group g0 id))).map
         (fun id => create_exception_dic id
           (wazuhOf (remove_from_group_op unset l agents_in_group g0 id))),
       remove_from_group_messages g0⟩ := by
  have hne : ¬ group_exists g0 = false := by simp [hg]
  simp only [remove_agents_from_group, if_neg hne]
  rw [bulkLoop_eq _ _ (fun id _ => rfg_op_nonRaw unset l agents_in_group g0 hu id)]

lemma rag_op_nonRaw (check_agent : String → Except PyExc Unit)
    (set_agent_group_file : String → String → Except PyExc Unit) (force : Bool)
    (hc : ∀ id, exNonRaw (check_agent id) = true)
    (hs : ∀ id g, exNonRaw (set_agent_group_file id g) = true) (id : String) :
    exNonRaw (remove_all_groups_op check_agent set_agent_group_file force id)
      = true := by
  unfold remove_all_groups_op
  split
  · rfl
  · split
    · exact hs id "default"
    · cases hck : check_agent id with
      | error e =>
        have := hc id
        rw [hck] at this
        simpa [hck] using this
      | ok v =>
        simp only [hck]
        exact hs id "default"

lemma remove_agents_from_all_groups_eq (check_agent : String → Except PyExc Unit)
    (set_agent_group_file : String → String → Except PyExc Unit) (force : Bool)
    (l : List String)
    (hc : ∀ id, exNonRaw (check_agent id) = true)
    (hs : ∀ id g, exNonRaw (set_agent_group_file id g) = true) :
    remove_agents_from_all_groups check_agent set_agent_group_file force l
      = .ok
      ⟨l.filter (fun id => exIsOk (remove_all_groups_op check_agent
          set_agent_group_file force id)),
       (l.filter (fun id => !exIsOk (remove_all_groups_op check_agent
          set_agent_group_file force id))).map
         (fun id => create_exception_dic id (wazuhOf (remove_all_groups_op
            check_agent set_agent_group_file force id))),
       remove_all_groups_messages⟩ := by
  unfold remove_agents_from_all_groups
  rw [bulkLoop_eq _ _ (fun id _ => rag_op_nonRaw check_agent
    set_agent_group_file force hc hs id)]

lemma deleteGroupsLoop_eq (delete_single_group : String → Except PyExc (List String))
    (remove_multi_group : String → Except PyExc Unit) (l : List String)
    (h1 : ∀ g, exNonRaw (delete_single_group g) = true)
    (h2 : ∀ g, exNonRaw (remove_multi_group g) = true) :
    deleteGroupsLoop delete_single_group remove_multi_group l = .ok
      (l.filter (fun g => exIsOk (delete_single_group g)),
       l.filterMap (group_fail_entry delete_single_group remove_multi_group),
       l.flatMap (fun g => okListOf (delete_single_group g))) := by
  induction l with
  | nil => simp [deleteGroupsLoop]
  | cons g rest ih =>
    cases hdel : delete_single_group g with
    | ok removed =>
      cases hrmg : remove_multi_group g with
      | ok v =>
        simp [deleteGroupsLoop, hdel, hrmg, ih, List.filter_cons,
          List.filterMap_cons, group_fail_entry, okListOf, exIsOk]
      | error e =>
        cases e with
        | wazuh w =>
          simp [deleteGroupsLoop, hdel, hrmg, ih, List.filter_cons,
            List.filterMap_cons, group_fail_entry, okListOf, exIsOk]
        | ioErr m =>
          have := h2 g
          rw [hrmg] at this
          simp [exNonRaw, PyExc.isWazuh] at this
        | keyErr m =>
          have := h2 g
          rw [hrmg] at this
          simp [exNonRaw, PyExc.isWazuh] at this
        | indexErr m =>
          have := h2 g
          rw [hrmg] at this
          simp [exNonRaw, PyExc.isWazuh] at this
        | other m =>
          have := h2 g
          rw [hrmg] at this
          simp [exNonRaw, PyExc.isWazuh] at this
    | error e =>
      cases e with
      | wazuh w =>
        simp [deleteGroupsLoop, hdel, ih, List.filter_cons,
          List.filterMap_cons, group_fail_entry, okListOf, exIsOk]
      | ioErr m =>
        have := h1 g
        rw [hdel] at this
        simp [exNonRaw, PyExc.isWazuh] at this
      | keyErr m =>
        have := h1 g
        rw [hdel] at this
        simp [exNonRaw, PyExc.isWazuh] at this
      | indexErr m =>
        have := h1 g
        rw [hdel] at this
        simp [exNonRaw, PyExc.isWazuh] at this
      | other m =>
        have := h1 g
        rw [hdel] at this
        simp [exNonRaw, PyExc.isWazuh] at this

lemma delete_groups_eq (delete_single_group : String → Except PyExc (List String))
    (remove_multi_group : String → Except PyExc Unit) (l : List String)
    (h1 : ∀ g, exNonRaw (delete_single_group g) = true)
    (h2 : ∀ g, exNonRaw (remove_multi_group g) = true) :
    delete_groups delete_single_group remove_multi_group l = .ok
      ⟨l.filter (fun g => exIsOk (delete_single_group g)),
       l.filterMap (group_fail_entry delete_single_group remove_multi_group),
       sortByKey (l.flatMap (fun g => okListOf (delete_single_group g))).dedup,
       delete_groups_messages⟩ := by
  unfold delete_groups
  rw [deleteGroupsLoop_eq delete_single_group remove_multi_group l h1 h2]

/-! ### Helper lemmas about the numeric sort of `affected_agents` -/

lemma mem_insertByKey (x a : String) (l : List String) :
    a ∈ insertByKey x l ↔ a = x ∨ a ∈ l := by
  induction l with
  | nil => simp [insertByKey]
  | cons y ys ih =>
    unfold insertByKey
    split
    · simp [List.mem_cons]
    · simp only [List.mem_cons, ih]
      tauto

lemma pairwise_insertByKey (x : String) (l : List String)
    (h : l.Pairwise (fun a b => intKey a ≤ intKey b)) :
    (insertByKey x l).Pairwise (fun a b => intKey a ≤ intKey b) := by
  induction l with
  | nil => simp [insertByKey]
  | cons y ys ih =>
    rw [List.pairwise_cons] at h
    unfold insertByKey
    split
    · rename_i hxy
      rw [List.pairwise_cons]
      refine ⟨?_, List.pairwise_cons.mpr h⟩
      intro b hb
      rcases List.mem_cons.mp hb with hb | hb
      · rw [hb]
        exact hxy
      · exact le_trans hxy (h.1 b hb)
    · rename_i hxy
      rw [List.pairwise_cons]
      constructor
      · intro b hb
        rw [mem_insertByKey] at hb
        rcases hb with hb | hb
        · rw [hb]
          omega
        · exact h.1 b hb
      · exact ih h.2

lemma mem_sortByKey (a : String) (l : List String) :
    a ∈ sortByKey l ↔ a ∈ l := by
  induction l with
  | nil => simp [sortByKey]
  | cons y ys ih =>
    unfold sortByKey at ih ⊢
    rw [List.foldr_cons, mem_insertByKey, ih, List.mem_cons]

lemma sortByKey_sorted (l : List String) :
    (sortByKey l).Pairwise (fun a b => intKey a ≤ intKey b) := by
  induction l with
  | nil => simp [sortByKey]
  | cons y ys ih =>
    unfold sortByKey at ih ⊢
    rw [List.foldr_cons]
    exact pairwise_insertByKey y _ ih

lemma nodup_insertByKey (x : String) (l : List String) (hx : x ∉ l)
    (h : l.Nodup) : (insertByKey x l).Nodup := by
  induction l with
  | nil => simp [insertByKey]
  | cons y ys ih =>
    rw [List.nodup_cons] at h
    unfold insertByKey
    split
    · rw [List.nodup_cons]
      exact ⟨hx, List.nodup_cons.mpr h⟩
    · rw [List.nodup_cons]
      constructor
      · rw [mem_insertByKey]
        rintro (hc | hc)
        · exact hx (List.mem_cons.mpr (Or.inl hc.symm))
        · exact h.1 hc
      · exact ih (fun hc => hx (List.mem_cons_of_mem y hc)) h.2

lemma nodup_sortByKey (l : List String) (h : l.Nodup) :
    (sortByKey l).Nodup := by
  induction l with
  | nil => simp [sortByKey]
  | cons y ys ih =>
    rw [List.nodup_cons] at h
    unfold sortByKey at ih ⊢
    rw [List.foldr_cons]
    exact nodup_insertByKey y _ (fun hc => h.1 ((mem_sortByKey y ys).mp hc))
      (ih h.2)

/-! ### Claim theorems -/

/-- C1: For every non-empty input target list given to a bulk operation
(`restart_agents`, `delete_agents`, `remove_agents_from_group`,
`remove_agents_from_all_groups`), the set of identifiers in `affected_items`
united with the set of identifiers in `failed_items` equals the input set,
and the two sets are disjoint — no target is silently dropped and no target
appears in both.  Primitives are assumed to raise only `WazuhException`s
(they wrap unexpected failures, spec §7), and the target group of
`remove_agents_from_group` to exist. -/
theorem C1_bulk_partition
    (transport load : String → Except PyExc Unit)
    (remove_agent : String → Bool → Bool → Except PyExc Unit)
    (purgeable : List String) (backup purge : Bool) (status older_than : String)
    (group_exists : String → Bool) (agents_in_group : List String)
    (unset set_agent_group_file : String → String → Except PyExc Unit)
    (check_agent : String → Except PyExc Unit)
    (g0 : String) (gs : List String) (force : Bool) (l : List String)
    (hne : l ≠ [])
    (htr : ∀ id, exNonRaw (transport id) = true)
    (hld : ∀ id, exNonRaw (load id) = true)
    (hrm : ∀ id, exNonRaw (remove_agent id backup purge) = true)
    (hun : ∀ id g, exNonRaw (unset id g) = true)
    (hck : ∀ id, exNonRaw (check_agent id) = true)
    (hsf : ∀ id g, exNonRaw (set_agent_group_file id g) = true)
    (hge : group_exists g0 = true) :
    (∃ r, restart_agents transport l = .ok r ∧
      (∀ x, (x ∈ r.affected_items ∨ x ∈ r.failed_items.map FailedItem.id)
        ↔ x ∈ l) ∧
      (∀ x, x ∈ r.affected_items → x ∉ r.failed_items.map FailedItem.id)) ∧
    (∃ r, delete_agents load remove_agent purgeable backup purge status
        older_than l = .ok r ∧
      (∀ x, (x ∈ r.affected_items ∨ x ∈ r.failed_items.map FailedItem.id)
        ↔ x ∈ l) ∧
      (∀ x, x ∈ r.affected_items → x ∉ r.failed_items.map FailedItem.id)) ∧
    (∃ r, remove_agents_from_group group_exists agents_in_group unset
        (g0 :: gs) l = .ok r ∧
      (∀ x, (x ∈ r.affected_items ∨ x ∈ r.failed_items.map FailedItem.id)
        ↔ x ∈ l) ∧
      (∀ x, x ∈ r.affected_items → x ∉ r.failed_items.map FailedItem.id)) ∧
    (∃ r, remove_agents_from_all_groups check_agent set_agent_group_file
        force l = .ok r ∧
      (∀ x, (x ∈ r.affected_items ∨ x ∈ r.failed_items.map FailedItem.id)
        ↔ x ∈ l) ∧
      (∀ x, x ∈ r.affected_items → x ∉ r.failed_items.map FailedItem.id)) := by
  refine ⟨⟨_, restart_agents_eq transport l htr, ?_, ?_⟩,
          ⟨_, delete_agents_eq load remove_agent purgeable backup purge status
              older_than l hld hrm, ?_, ?_⟩,
          ⟨_, remove_agents_from_group_eq group_exists agents_in_group unset
              g0 gs l hge hun, ?_, ?_⟩,
          ⟨_, remove_agents_from_all_groups_eq check_agent
              set_agent_group_file force l hck hsf, ?_, ?_⟩⟩
  · exact covers_union l _ _
  · exact covers_disjoint l _ _
  · exact covers_union l _ _
  · exact covers_disjoint l _ _
  · exact covers_union l _ _
  · exact covers_disjoint l _ _
  · exact covers_union l _ _
  · exact covers_disjoint l _ _

/-- Witness for C1 at a concrete input: one agent "001", primitives that
always succeed, an existing group. -/
theorem C1_bulk_partition_witness :
    ∃ r, restart_agents (fun _ => Except.ok ()) ["001"] = .ok r ∧
      (∀ x, (x ∈ r.affected_items ∨ x ∈ r.failed_items.map FailedItem.id)
        ↔ x ∈ ["001"]) ∧
      (∀ x, x ∈ r.affected_items → x ∉ r.failed_items.map FailedItem.id) :=
  (C1_bulk_partition (fun _ => Except.ok ()) (fun _ => Except.ok ())
    (fun _ _ _ => Except.ok ()) ["001"] false false "all" "7d"
    (fun _ => true) ["001"] (fun _ _ => Except.ok ()) (fun _ _ => Except.ok ())
    (fun _ => Except.ok ()) "web" [] false ["001"]
    (by decide) (fun _ => rfl) (fun _ => rfl) (fun _ => rfl)
    (fun _ _ => rfl) (fun _ => rfl) (fun _ _ => rfl) rfl).1

lemma restart_op_000 (transport : String → Except PyExc Unit) :
    Agent.restart transport "000"
      = .error (.wazuh (.err 1703 reserved_msg)) := by
  simp [Agent.restart]

lemma delete_op_000 (load : String → Except PyExc Unit)
    (remove_agent : String → Bool → Bool → Except PyExc Unit)
    (purgeable : List String) (backup purge : Bool) (status older_than : String) :
    delete_agents_op load remove_agent purgeable backup purge status older_than
      "000" = .error (.wazuh (.err 1703 reserved_msg)) := by
  simp [delete_agents_op]

lemma rfg_op_000 (unset : String → String → Except PyExc Unit)
    (agent_list agents_in_group : List String) (g0 : String)
    (hl : agent_list.contains "000" = true) :
    remove_from_group_op unset agent_list agents_in_group g0 "000"
      = .error (.wazuh (.err 1703 reserved_msg)) := by
  unfold remove_from_group_op
  cases hm : agents_in_group.contains "000"
  · rw [hl]
    norm_num
  · rw [hl]
    norm_num [Agent.unset_single_group_agent]

lemma failed_1703 (l : List String) (op : String → Except PyExc Unit)
    (h000 : op "000" = .error (.wazuh (.err 1703 reserved_msg)))
    (hmem : "000" ∈ l) :
    (∃ f ∈ (l.filter (fun id => !exIsOk (op id))).map
        (fun id => create_exception_dic id (wazuhOf (op id))),
      f.id = "000" ∧ f.code = 1703) ∧
    "000" ∉ l.filter (fun id => exIsOk (op id)) := by
  constructor
  · refine ⟨create_exception_dic "000" (wazuhOf (op "000")),
      mem_failed_of_op_err l _ _ "000" hmem ?_, rfl, ?_⟩
    · rw [h000]
      rfl
    · rw [h000]
      rfl
  · refine not_mem_affected_of_op_err l _ "000" ?_
    rw [h000]
    rfl

/-- C2: For every input list containing the identifier "000", each of
`delete_agents`, `restart_agents` and `remove_agents_from_group` places
"000" in `failed_items` with the reserved-identifier error code 1703 and
never in `affected_items`, regardless of store state (the eligibility and
membership query results are universally quantified).  The "000" guards of
`Agent.restart` and `Agent.unset_single_group_agent` are modelled from the
spec; the guards of `delete_agents` and of the non-member branch of
`remove_agents_from_group` are in the source. -/
theorem C2_reserved_identifier
    (transport load : String → Except PyExc Unit)
    (remove_agent : String → Bool → Bool → Except PyExc Unit)
    (purgeable : List String) (backup purge : Bool) (status older_than : String)
    (group_exists : String → Bool) (agents_in_group : List String)
    (unset : String → String → Except PyExc Unit)
    (g0 : String) (gs : List String) (l : List String)
    (hmem : "000" ∈ l)
    (htr : ∀ id, exNonRaw (transport id) = true)
    (hld : ∀ id, exNonRaw (load id) = true)
    (hrm : ∀ id, exNonRaw (remove_agent id backup purge) = true)
    (hun : ∀ id g, exNonRaw (unset id g) = true)
    (hge : group_exists g0 = true) :
    (∃ r, delete_agents load remove_agent purgeable backup purge status
        older_than l = .ok r ∧
      (∃ f ∈ r.failed_items, f.id = "000" ∧ f.code = 1703) ∧
      "000" ∉ r.affected_items) ∧
    (∃ r, restart_agents transport l = .ok r ∧
      (∃ f ∈ r.failed_items, f.id = "000" ∧ f.code = 1703) ∧
      "000" ∉ r.affected_items) ∧
    (∃ r, remove_agents_from_group group_exists agents_in_group unset
        (g0 :: gs) l = .ok r ∧
      (∃ f ∈ r.failed_items, f.id = "000" ∧ f.code = 1703) ∧
      "000" ∉ r.affected_items) := by
  refine ⟨⟨_, delete_agents_eq load remove_agent purgeable backup purge status
      older_than l hld hrm, ?_⟩,
    ⟨_, restart_agents_eq transport l htr, ?_⟩,
    ⟨_, remove_agents_from_group_eq group_exists agents_in_group unset g0 gs l
      hge hun, ?_⟩⟩
  · exact failed_1703 l _ (delete_op_000 load remove_agent purgeable backup
      purge status older_than) hmem
  · exact failed_1703 l _ (restart_op_000 transport) hmem
  · exact failed_1703 l _ (rfg_op_000 unset l agents_in_group g0
      (List.elem_eq_true_of_mem hmem)) hmem

/-- Witness for C2 at a concrete input: the list ["000", "001"] with
primitives that always succeed. -/
theorem C2_reserved_identifier_witness :
    ∃ r, delete_agents (fun _ => Except.ok ()) (fun _ _ _ => Except.ok ())
        ["001"] false false "all" "7d" ["000", "001"] = .ok r ∧
      (∃ f ∈ r.failed_items, f.id = "000" ∧ f.code = 1703) ∧
      "000" ∉ r.affected_items :=
  (C2_reserved_identifier (fun _ => Except.ok ()) (fun _ => Except.ok ())
    (fun _ _ _ => Except.ok ()) ["001"] false false "all" "7d"
    (fun _ => true) ["001"] (fun _ _ => Except.ok ()) "web" [] ["000", "001"]
    (by decide) (fun _ => rfl) (fun _ => rfl) (fun _ => rfl)
    (fun _ _ => rfl) rfl).1

/-- C3: For every input list to a bulk operation, the order of entries in
`affected_items` and in `failed_items` each preserve the input order:
both lists are the input list filtered by the per-target outcome (hence
subsequences of the input, never re-sorted), shown for `restart_agents`
and `remove_agents_from_group`. -/
theorem C3_order_preserved
    (transport : String → Except PyExc Unit)
    (group_exists : String → Bool) (agents_in_group : List String)
    (unset : String → String → Except PyExc Unit)
    (g0 : String) (gs : List String) (l : List String)
    (htr : ∀ id, exNonRaw (transport id) = true)
    (hun : ∀ id g, exNonRaw (unset id g) = true)
    (hge : group_exists g0 = true) :
    (∃ r, restart_agents transport l = .ok r ∧
      r.affected_items
        = l.filter (fun id => exIsOk (Agent.restart transport id)) ∧
      r.failed_items
        = (l.filter (fun id => !exIsOk (Agent.restart transport id))).map
            (fun id => create_exception_dic id
              (wazuhOf (Agent.restart transport id))) ∧
      r.affected_items.Sublist l ∧
      (r.failed_items.map FailedItem.id).Sublist l) ∧
    (∃ r, remove_agents_from_group group_exists agents_in_group unset
        (g0 :: gs) l = .ok r ∧
      r.affected_items
        = l.filter (fun id => exIsOk (remove_from_group_op unset l
            agents_in_group g0 id)) ∧
      r.failed_items
        = (l.filter (fun id => !exIsOk (remove_from_group_op unset l
            agents_in_group g0 id))).map
            (fun id => create_exception_dic id
              (wazuhOf (remove_from_group_op unset l agents_in_group g0 id))) ∧
      r.affected_items.Sublist l ∧
      (r.failed_items.map FailedItem.id).Sublist l) := by
  refine ⟨⟨_, restart_agents_eq transport l htr, rfl, rfl, ?_, ?_⟩,
    ⟨_, remove_agents_from_group_eq group_exists agents_in_group unset g0 gs l
      hge hun, rfl, rfl, ?_, ?_⟩⟩
  · exact List.filter_sublist l
  · rw [failed_ids_eq]
    exact List.filter_sublist l
  · exact List.filter_sublist l
  · rw [failed_ids_eq]
    exact List.filter_sublist l

/-- Witness for C3 at a concrete input: two agents with always-succeeding
primitives and an existing group. -/
theorem C3_order_preserved_witness :
    ∃ r, restart_agents (fun _ => Except.ok ()) ["001", "002"] = .ok r ∧
      r.affected_items = (["001", "002"] : List String).filter
        (fun id => exIsOk (Agent.restart (fun _ => Except.ok ()) id)) ∧
      r.failed_items = ((["001", "002"] : List String).filter
        (fun id => !exIsOk (Agent.restart (fun _ => Except.ok ()) id))).map
          (fun id => create_exception_dic id
            (wazuhOf (Agent.restart (fun _ => Except.ok ()) id))) ∧
      r.affected_items.Sublist ["001", "002"] ∧
      (r.failed_items.map FailedItem.id).Sublist ["001", "002"] :=
  (C3_order_preserved (fun _ => Except.ok ()) (fun _ => true) ["001"]
    (fun _ _ => Except.ok ()) "web" [] ["001", "002"]
    (fun _ => rfl) (fun _ _ => rfl) rfl).1

lemma wrap_primitive_nonRaw {α : Type} (c : Nat) (b : String → RawOutcome α)
    (id : String) : exNonRaw (wrap_primitive c b id) = true := by
  unfold wrap_primitive
  cases b id <;> rfl

lemma suffix_filter_cons {α : Type} (p : α → Bool) (t : α) (ts : List α) :
    (ts.filter p).IsSuffix ((t :: ts).filter p) := by
  rw [List.filter_cons]
  split
  · exact ⟨[t], rfl⟩
  · exact ⟨[], rfl⟩

lemma suffix_map_filter_cons {α β : Type} (f : α → β) (p : α → Bool)
    (t : α) (ts : List α) :
    ((ts.filter p).map f).IsSuffix (((t :: ts).filter p).map f) := by
  rw [List.filter_cons]
  split
  · rw [List.map_cons]
    exact ⟨[f t], rfl⟩
  · exact ⟨[], rfl⟩

lemma suffix_filterMap_cons {α β : Type} (f : α → Option β) (t : α)
    (ts : List α) :
    (ts.filterMap f).IsSuffix ((t :: ts).filterMap f) := by
  rw [List.filterMap_cons]
  cases f t
  · exact ⟨[], rfl⟩
  · rename_i b
    exact ⟨[b], rfl⟩

lemma restart_wrap_unexpected (c : Nat) (b : String → RawOutcome Unit)
    (id m : String) (hid0 : id ≠ "000") (hb : b id = .unexpected m) :
    Agent.restart (wrap_primitive c b) id
      = .error (.wazuh (.internalErr c m)) := by
  unfold Agent.restart wrap_primitive
  rw [if_neg hid0, hb]

/-- C4: Within a bulk operation, an unknown per-target failure (one that is
not a recognized `WazuhException`) is wrapped by the entity-operation
primitive into the generic internal-error kind (here: code `c1`/`c2` with
the original message kept) and recorded as a `failed_items` entry for that
target rather than propagated raw out of the loop, and a failure on one
target never aborts processing of subsequent targets: the whole call still
returns a result, and the entries of the remaining targets survive as a
suffix.  Shown for `restart_agents` and `delete_groups` over primitives
built with the spec-modelled `wrap_primitive`. -/
theorem C4_unknown_failure_isolation
    (c1 c2 c3 : Nat) (b1 : String → RawOutcome Unit) (l : List String)
    (id m : String) (b2 : String → RawOutcome (List String))
    (b3 : String → RawOutcome Unit) (gl : List String) (g m2 : String)
    (hid : id ∈ l) (hid0 : id ≠ "000") (hb1 : b1 id = .unexpected m)
    (hg : g ∈ gl) (hb2 : b2 g = .unexpected m2) :
    (∃ r, restart_agents (wrap_primitive c1 b1) l = .ok r ∧
      (⟨id, c1, m⟩ : FailedItem) ∈ r.failed_items ∧
      (∀ t ts, ∃ r1 r2,
        restart_agents (wrap_primitive c1 b1) (t :: ts) = .ok r1 ∧
        restart_agents (wrap_primitive c1 b1) ts = .ok r2 ∧
        r2.affected_items.IsSuffix r1.affected_items ∧
        r2.failed_items.IsSuffix r1.failed_items)) ∧
    (∃ r, delete_groups (wrap_primitive c2 b2) (wrap_primitive c3 b3) gl
        = .ok r ∧
      (⟨g, c2, m2⟩ : FailedItem) ∈ r.failed_items ∧
      (∀ t ts, ∃ r1 r2,
        delete_groups (wrap_primitive c2 b2) (wrap_primitive c3 b3) (t :: ts)
          = .ok r1 ∧
        delete_groups (wrap_primitive c2 b2) (wrap_primitive c3 b3) ts
          = .ok r2 ∧
        r2.affected_items.IsSuffix r1.affected_items ∧
        r2.failed_items.IsSuffix r1.failed_items)) := by
  have hnr1 : ∀ i, exNonRaw (Agent.restart (wrap_primitive c1 b1) i) = true :=
    restart_op_nonRaw _ (wrap_primitive_nonRaw c1 b1)
  constructor
  · refine ⟨_, restart_agents_eq _ l (wrap_primitive_nonRaw c1 b1), ?_, ?_⟩
    · have herr := restart_wrap_unexpected c1 b1 id m hid0 hb1
      have hmem := mem_failed_of_op_err l
        (fun i => exIsOk (Agent.restart (wrap_primitive c1 b1) i))
        (fun i => wazuhOf (Agent.restart (wrap_primitive c1 b1) i)) id hid
        (by simp [herr, exIsOk])
      simpa [create_exception_dic, herr, wazuhOf, WazuhExc.code,
        WazuhExc.message] using hmem
    · intro t ts
      refine ⟨_, _, restart_agents_eq _ (t :: ts) (wrap_primitive_nonRaw c1 b1),
        restart_agents_eq _ ts (wrap_primitive_nonRaw c1 b1), ?_, ?_⟩
      · exact suffix_filter_cons _ t ts
      · exact suffix_map_filter_cons _ _ t ts
  · refine ⟨_, delete_groups_eq _ _ gl (wrap_primitive_nonRaw c2 b2)
      (wrap_primitive_nonRaw c3 b3), ?_, ?_⟩
    · have hfe : group_fail_entry (wrap_primitive c2 b2) (wrap_primitive c3 b3) g
          = some ⟨g, c2, m2⟩ := by
        unfold group_fail_entry wrap_primitive
        rw [hb2]
        rfl
      exact List.mem_filterMap.mpr ⟨g, hg, hfe⟩
    · intro t ts
      refine ⟨_, _, delete_groups_eq _ _ (t :: ts) (wrap_primitive_nonRaw c2 b2)
          (wrap_primitive_nonRaw c3 b3),
        delete_groups_eq _ _ ts (wrap_primitive_nonRaw c2 b2)
          (wrap_primitive_nonRaw c3 b3), ?_, ?_⟩
      · exact suffix_filter_cons _ t ts
      · exact suffix_filterMap_cons _ t ts

/-- Witness for C4 at a concrete input: a primitive whose raw behaviour
fails unexpectedly on "001" and a group primitive failing unexpectedly on
"web". -/
theorem C4_unknown_failure_isolation_witness :
    ∃ r, restart_agents (wrap_primitive 1000
        (fun _ => RawOutcome.unexpected "boom")) ["001"] = .ok r ∧
      (⟨"001", 1000, "boom"⟩ : FailedItem) ∈ r.failed_items ∧
      (∀ t ts, ∃ r1 r2,
        restart_agents (wrap_primitive 1000
          (fun _ => RawOutcome.unexpected "boom")) (t :: ts) = .ok r1 ∧
        restart_agents (wrap_primitive 1000
          (fun _ => RawOutcome.unexpected "boom")) ts = .ok r2 ∧
        r2.affected_items.IsSuffix r1.affected_items ∧
        r2.failed_items.IsSuffix r1.failed_items) :=
  (C4_unknown_failure_isolation 1000 1001 1002
    (fun _ => RawOutcome.unexpected "boom") ["001"] "001" "boom"
    (fun _ => RawOutcome.unexpected "crash") (fun _ => RawOutcome.ok ())
    ["web"] "web" "crash"
    (by decide) (by decide) rfl (by decide) rfl).1

lemma resolve_multi (shared_path multi_groups_path : String) (info : AgentInfo)
    (h : 1 < info.group.length) :
    resolve_merged_path shared_path multi_groups_path info
      = .ok (pathJoin (pathJoin multi_groups_path
          (multi_group_token info.group)) "merged.mg") := by
  unfold resolve_merged_path
  rw [if_pos h]

lemma resolve_single (shared_path multi_groups_path : String) (info : AgentInfo)
    (g : String) (h : info.group = [g]) :
    resolve_merged_path shared_path multi_groups_path info
      = .ok (pathJoin (pathJoin shared_path g) "merged.mg") := by
  unfold resolve_merged_path
  rw [h]
  norm_num

lemma sync_call_some (get_basic_information : String → Except PyExc AgentInfo)
    (fs : String → Option String) (md5fn : String → String)
    (shared_path multi_groups_path agent_id : String) (rest : List String)
    (info : AgentInfo) (p c : String)
    (hId : agent_id ≠ "000")
    (hLoad : get_basic_information agent_id = .ok info)
    (hres : resolve_merged_path shared_path multi_groups_path info = .ok p)
    (hfs : fs p = some c) :
    get_agents_sync_group get_basic_information fs md5fn shared_path
        multi_groups_path (agent_id :: rest)
      = .ok (md5fn c == info.mergedSum) := by
  simp only [get_agents_sync_group, sync_try_body, md5file, if_neg hId,
    hLoad, hres, hfs, sync_handler]

lemma sync_call_none (get_basic_information : String → Except PyExc AgentInfo)
    (fs : String → Option String) (md5fn : String → String)
    (shared_path multi_groups_path agent_id : String) (rest : List String)
    (info : AgentInfo) (p : String)
    (hId : agent_id ≠ "000")
    (hLoad : get_basic_information agent_id = .ok info)
    (hres : resolve_merged_path shared_path multi_groups_path info = .ok p)
    (hfs : fs p = none) :
    get_agents_sync_group get_basic_information fs md5fn shared_path
        multi_groups_path (agent_id :: rest)
      = .ok false := by
  simp only [get_agents_sync_group, sync_try_body, md5file, if_neg hId,
    hLoad, hres, hfs, sync_handler]

/-- C5: For every agent whose stored group membership has more than one
group, the sync verifier derives the multi-group token by joining the group
names with the fixed separator "," in the agent's stored order, hashing the
joined string with SHA-256 and truncating the hex digest to its first 8
characters; the resolved artifact lives in the multi-group directory named
by that token, the call compares its digest against the agent's reported
checksum, and the token is a pure function of the stored group list, hence
identical across repeated calls. -/
theorem C5_multi_group_token_derivation
    (get_basic_information : String → Except PyExc AgentInfo)
    (fs : String → Option String) (md5fn : String → String)
    (shared_path multi_groups_path agent_id : String) (rest : List String)
    (info : AgentInfo)
    (hId : agent_id ≠ "000")
    (hLoad : get_basic_information agent_id = .ok info)
    (hLen : 1 < info.group.length) :
    multi_group_token info.group
      = (sha256Hex (String.intercalate "," info.group)).take 8 ∧
    resolve_merged_path shared_path multi_groups_path info
      = .ok (pathJoin (pathJoin multi_groups_path
          (multi_group_token info.group)) "merged.mg") ∧
    (∀ c, fs (pathJoin (pathJoin multi_groups_path
          (multi_group_token info.group)) "merged.mg") = some c →
      get_agents_sync_group get_basic_information fs md5fn shared_path
          multi_groups_path (agent_id :: rest)
        = .ok (md5fn c == info.mergedSum)) ∧
    (∀ groups2, groups2 = info.group →
      multi_group_token groups2 = multi_group_token info.group) := by
  refine ⟨rfl, resolve_multi shared_path multi_groups_path info hLen, ?_, ?_⟩
  · intro c hc
    exact sync_call_some get_basic_information fs md5fn shared_path
      multi_groups_path agent_id rest info _ c hId hLoad
      (resolve_multi shared_path multi_groups_path info hLen) hc
  · intro groups2 h2
    rw [h2]

/-- Witness for C5 at a concrete input: an agent "001" stored with the two
groups ["g1", "g2"]. -/
theorem C5_multi_group_token_derivation_witness :
    multi_group_token (["g1", "g2"] : List String)
      = (sha256Hex (String.intercalate "," ["g1", "g2"])).take 8 ∧
    resolve_merged_path "/shared" "/multigroups"
        (AgentInfo.mk ["g1", "g2"] "abc")
      = .ok (pathJoin (pathJoin "/multigroups"
          (multi_group_token ["g1", "g2"])) "merged.mg") ∧
    (∀ c, (fun _ => some "data") (pathJoin (pathJoin "/multigroups"
          (multi_group_token ["g1", "g2"])) "merged.mg") = some c →
      get_agents_sync_group (fun _ => Except.ok (AgentInfo.mk ["g1", "g2"] "abc"))
          (fun _ => some "data") (fun _ => "abc") "/shared" "/multigroups"
          ["001"]
        = .ok ((fun _ => "abc") c == "abc")) ∧
    (∀ groups2, groups2 = (["g1", "g2"] : List String) →
      multi_group_token groups2 = multi_group_token ["g1", "g2"]) :=
  C5_multi_group_token_derivation
    (fun _ => Except.ok (AgentInfo.mk ["g1", "g2"] "abc"))
    (fun _ => some "data") (fun _ => "abc") "/shared" "/multigroups"
    "001" [] (AgentInfo.mk ["g1", "g2"] "abc")
    (by decide) rfl (by decide)

/-- C6: For every agent identifier other than "000" whose record loads
successfully (and whose stored membership is non-empty, which the data
model guarantees — an agent always belongs at least to `default`),
`get_agents_sync_group` returns `{'synced': b}` where `b` is true exactly
when the content digest of the resolved merged artifact equals the agent's
last-reported merged checksum; with exactly one group the resolved artifact
is that group's own `merged.mg`; and a missing or unreadable artifact file
yields `{'synced': False}` with no error raised. -/
theorem C6_sync_comparison
    (get_basic_information : String → Except PyExc AgentInfo)
    (fs : String → Option String) (md5fn : String → String)
    (shared_path multi_groups_path agent_id : String) (rest : List String)
    (info : AgentInfo)
    (hId : agent_id ≠ "000")
    (hLoad : get_basic_information agent_id = .ok info)
    (hG : info.group ≠ []) :
    ∃ p, resolve_merged_path shared_path multi_groups_path info = .ok p ∧
      (∀ g, info.group = [g] → p = pathJoin (pathJoin shared_path g)
        "merged.mg") ∧
      (∀ c, fs p = some c →
        get_agents_sync_group get_basic_information fs md5fn shared_path
            multi_groups_path (agent_id :: rest)
          = .ok (md5fn c == info.mergedSum)) ∧
      (fs p = none →
        get_agents_sync_group get_basic_information fs md5fn shared_path
            multi_groups_path (agent_id :: rest)
          = .ok false) := by
  by_cases hLen : 1 < info.group.length
  · refine ⟨_, resolve_multi shared_path multi_groups_path info hLen,
      ?_, ?_, ?_⟩
    · intro g hg
      rw [hg] at hLen
      simp at hLen
    · intro c hc
      exact sync_call_some get_basic_information fs md5fn shared_path
        multi_groups_path agent_id rest info _ c hId hLoad
        (resolve_multi shared_path multi_groups_path info hLen) hc
    · intro hn
      exact sync_call_none get_basic_information fs md5fn shared_path
        multi_groups_path agent_id rest info _ hId hLoad
        (resolve_multi shared_path multi_groups_path info hLen) hn
  · obtain ⟨g, hg⟩ : ∃ g, info.group = [g] := by
      cases hgrp : info.group with
      | nil => exact absurd hgrp hG
      | cons g gs =>
        cases gs with
        | nil => exact ⟨g, rfl⟩
        | cons g2 gs2 =>
          have : 1 < info.group.length := by
            rw [hgrp]
            simp [List.length_cons]
          exact absurd this hLen
    refine ⟨_, resolve_single shared_path multi_groups_path info g hg,
      ?_, ?_, ?_⟩
    · intro g2 hg2
      rw [hg] at hg2
      injection hg2 with h1 h2
      rw [h1]
    · intro c hc
      exact sync_call_some get_basic_information fs md5fn shared_path
        multi_groups_path agent_id rest info _ c hId hLoad
        (resolve_single shared_path multi_groups_path info g hg) hc
    · intro hn
      exact sync_call_none get_basic_information fs md5fn shared_path
        multi_groups_path agent_id rest info _ hId hLoad
        (resolve_single shared_path multi_groups_path info g hg) hn

/-- Witness for C6 at a concrete input: agent "001" stored with the single
group ["default"] and an absent artifact file. -/
theorem C6_sync_comparison_witness :
    ∃ p, resolve_merged_path "/shared" "/multigroups"
        (AgentInfo.mk ["default"] "abc") = .ok p ∧
      (∀ g, (AgentInfo.mk ["default"] "abc").group = [g] →
        p = pathJoin (pathJoin "/shared" g) "merged.mg") ∧
      (∀ c, (fun _ => (none : Option String)) p = some c →
        get_agents_sync_group
            (fun _ => Except.ok (AgentInfo.mk ["default"] "abc"))
            (fun _ => none) (fun _ => "abc") "/shared" "/multigroups" ["001"]
          = .ok ((fun _ => "abc") c == "abc")) ∧
      ((fun _ => (none : Option String)) p = none →
        get_agents_sync_group
            (fun _ => Except.ok (AgentInfo.mk ["default"] "abc"))
            (fun _ => none) (fun _ => "abc") "/shared" "/multigroups" ["001"]
          = .ok false) :=
  C6_sync_comparison (fun _ => Except.ok (AgentInfo.mk ["default"] "abc"))
    (fun _ => none) (fun _ => "abc") "/shared" "/multigroups" "001" []
    (AgentInfo.mk ["default"] "abc") (by decide) rfl (by decide)

lemma rfg_op_1734 (unset : String → String → Except PyExc Unit)
    (agent_list agents_in_group : List String) (g0 id : String)
    (hl : agent_list.contains id = true)
    (hm : agents_in_group.contains id = false) (hid : id ≠ "000") :
    remove_from_group_op unset agent_list agents_in_group g0 id
      = .error (.wazuh (.err 1734 msg_1734)) := by
  unfold remove_from_group_op
  rw [hl, hm]
  simp [hid]

/-- C7: `remove_agents_from_group` performs a two-stage check: a
non-existing target group fails the entire call with the group-not-found
error 1710 and produces no per-target entries, while — when the group
exists — every agent of the input list that is not a recorded member of the
group and is not "000" lands in `failed_items` with the distinct
not-a-member code 1734, not the reserved-identifier code 1703. -/
theorem C7_two_stage_group_removal
    (group_exists : String → Bool) (agents_in_group : List String)
    (unset : String → String → Except PyExc Unit)
    (g0 : String) (gs : List String) (l : List String) (id : String)
    (hge : group_exists g0 = true)
    (hl : id ∈ l)
    (hm : agents_in_group.contains id = false)
    (hid : id ≠ "000")
    (hun : ∀ i g, exNonRaw (unset i g) = true) :
    (∀ g' gs' l', group_exists g' = false →
      remove_agents_from_group group_exists agents_in_group unset (g' :: gs') l'
        = .error (.wazuh (.err 1710 msg_1710))) ∧
    (∃ r, remove_agents_from_group group_exists agents_in_group unset
        (g0 :: gs) l = .ok r ∧
      (∃ f ∈ r.failed_items, f.id = id ∧ f.code = 1734 ∧ f.code ≠ 1703) ∧
      id ∉ r.affected_items) := by
  constructor
  · intro g' gs' l' hge'
    simp only [remove_agents_from_group, if_pos hge']
  · refine ⟨_, remove_agents_from_group_eq group_exists agents_in_group unset
      g0 gs l hge hun, ?_, ?_⟩
    · have herr := rfg_op_1734 unset l agents_in_group g0 id
        (List.elem_eq_true_of_mem hl) hm hid
      refine ⟨create_exception_dic id
        (wazuhOf (remove_from_group_op unset l agents_in_group g0 id)),
        mem_failed_of_op_err l _ _ id hl (by simp [herr, exIsOk]), rfl, ?_, ?_⟩
      · rw [herr]
        rfl
      · rw [herr]
        simp [create_exception_dic, wazuhOf, WazuhExc.code]
    · refine not_mem_affected_of_op_err l _ id ?_
      rw [rfg_op_1734 unset l agents_in_group g0 id
        (List.elem_eq_true_of_mem hl) hm hid]
      rfl

/-- Witness for C7 at a concrete input: the group "web" exists, agent "001"
is in the input list but not a recorded member. -/
theorem C7_two_stage_group_removal_witness :
    (∀ g' gs' l', (fun g => g == "web") g' = false →
      remove_agents_from_group (fun g => g == "web") ["002"]
          (fun _ _ => Except.ok ()) (g' :: gs') l'
        = .error (.wazuh (.err 1710 msg_1710))) ∧
    (∃ r, remove_agents_from_group (fun g => g == "web") ["002"]
        (fun _ _ => Except.ok ()) ["web"] ["001"] = .ok r ∧
      (∃ f ∈ r.failed_items, f.id = "001" ∧ f.code = 1734 ∧ f.code ≠ 1703) ∧
      "001" ∉ r.affected_items) :=
  C7_two_stage_group_removal (fun g => g == "web") ["002"]
    (fun _ _ => Except.ok ()) "web" [] ["001"] "001"
    rfl (by decide) (by decide) (by decide) (fun _ _ => rfl)

lemma select_summary_cases (aff : List String) (fl : List FailedItem)
    (msgs : List String) :
    (fl = [] → select_summary aff fl msgs = msgs.getD 0 "") ∧
    (fl ≠ [] → aff ≠ [] → select_summary aff fl msgs = msgs.getD 1 "") ∧
    (fl ≠ [] → aff = [] → select_summary aff fl msgs = msgs.getD 2 "") := by
  refine ⟨fun h => ?_, fun h1 h2 => ?_, fun h1 h2 => ?_⟩
  · rw [h]
    rfl
  · cases fl with
    | nil => exact absurd rfl h1
    | cons f fs =>
      cases aff with
      | nil => exact absurd rfl h2
      | cons a as => rfl
  · cases fl with
    | nil => exact absurd rfl h1
    | cons f fs =>
      rw [h2]
      rfl

/-- C8: After processing all targets, every bulk operation carries exactly
three operation-specific summary messages, and the selection consuming them
picks exactly one by the invariant rule: `failed_items` empty → the
"all succeeded" message; `failed_items` and `affected_items` both non-empty
→ the "partial" message; `affected_items` empty → the "all failed"
message.  Shown for `restart_agents`, `delete_agents` and `delete_groups`;
the selector is modelled from the spec. -/
theorem C8_summary_selection
    (transport load : String → Except PyExc Unit)
    (remove_agent : String → Bool → Bool → Except PyExc Unit)
    (purgeable : List String) (backup purge : Bool) (status older_than : String)
    (delete_single_group : String → Except PyExc (List String))
    (remove_multi_group : String → Except PyExc Unit)
    (l gl : List String)
    (htr : ∀ id, exNonRaw (transport id) = true)
    (hld : ∀ id, exNonRaw (load id) = true)
    (hrm : ∀ id, exNonRaw (remove_agent id backup purge) = true)
    (hd1 : ∀ g, exNonRaw (delete_single_group g) = true)
    (hd2 : ∀ g, exNonRaw (remove_multi_group g) = true) :
    (∃ r, restart_agents transport l = .ok r ∧
      r.str_priority = restart_messages ∧ r.str_priority.length = 3 ∧
      (r.failed_items = [] →
        select_summary r.affected_items r.failed_items r.str_priority
          = r.str_priority.getD 0 "") ∧
      (r.failed_items ≠ [] → r.affected_items ≠ [] →
        select_summary r.affected_items r.failed_items r.str_priority
          = r.str_priority.getD 1 "") ∧
      (r.failed_items ≠ [] → r.affected_items = [] →
        select_summary r.affected_items r.failed_items r.str_priority
          = r.str_priority.getD 2 "")) ∧
    (∃ r, delete_agents load remove_agent purgeable backup purge status
        older_than l = .ok r ∧
      r.str_priority = delete_agents_messages ∧ r.str_priority.length = 3 ∧
      (r.failed_items = [] →
        select_summary r.affected_items r.failed_items r.str_priority
          = r.str_priority.getD 0 "") ∧
      (r.failed_items ≠ [] → r.affected_items ≠ [] →
        select_summary r.affected_items r.failed_items r.str_priority
          = r.str_priority.getD 1 "") ∧
      (r.failed_items ≠ [] → r.affected_items = [] →
        select_summary r.affected_items r.failed_items r.str_priority
          = r.str_priority.getD 2 "")) ∧
    (∃ r, delete_groups delete_single_group remove_multi_group gl = .ok r ∧
      r.str_priority = delete_groups_messages ∧ r.str_priority.length = 3 ∧
      (r.failed_items = [] →
        select_summary r.affected_items r.failed_items r.str_priority
          = r.str_priority.getD 0 "") ∧
      (r.failed_items ≠ [] → r.affected_items ≠ [] →
        select_summary r.affected_items r.failed_items r.str_priority
          = r.str_priority.getD 1 "") ∧
      (r.failed_items ≠ [] → r.affected_items = [] →
        select_summary r.affected_items r.failed_items r.str_priority
          = r.str_priority.getD 2 "")) := by
  refine ⟨⟨_, restart_agents_eq transport l htr, rfl, rfl, ?_⟩,
    ⟨_, delete_agents_eq load remove_agent purgeable backup purge status
      older_than l hld hrm, rfl, rfl, ?_⟩,
    ⟨_, delete_groups_eq delete_single_group remove_multi_group gl hd1 hd2,
      rfl, rfl, ?_⟩⟩
  · exact select_summary_cases _ _ _
  · exact select_summary_cases _ _ _
  · exact select_summary_cases _ _ _

/-- Witness for C8 at a concrete input: one agent and one group with
always-succeeding primitives. -/
theorem C8_summary_selection_witness :
    ∃ r, restart_agents (fun _ => Except.ok ()) ["001"] = .ok r ∧
      r.str_priority = restart_messages ∧ r.str_priority.length = 3 ∧
      (r.failed_items = [] →
        select_summary r.affected_items r.failed_items r.str_priority
          = r.str_priority.getD 0 "") ∧
      (r.failed_items ≠ [] → r.affected_items ≠ [] →
        select_summary r.affected_items r.failed_items r.str_priority
          = r.str_priority.getD 1 "") ∧
      (r.failed_items ≠ [] → r.affected_items = [] →
        select_summary r.affected_items r.failed_items r.str_priority
          = r.str_priority.getD 2 "") :=
  (C8_summary_selection (fun _ => Except.ok ()) (fun _ => Except.ok ())
    (fun _ _ _ => Except.ok ()) ["001"] false false "all" "7d"
    (fun _ => Except.ok ["002"]) (fun _ => Except.ok ()) ["001"] ["web"]
    (fun _ => rfl) (fun _ => rfl) (fun _ => rfl) (fun _ => rfl)
    (fun _ => rfl)).1

lemma mem_okListOf (r : Except PyExc (List String)) (x : String) :
    x ∈ okListOf r ↔ ∃ v, r = .ok v ∧ x ∈ v := by
  cases r with
  | ok v => simp [okListOf]
  | error e => simp [okListOf]

/-- C9: For every input group list, `delete_groups` returns
`affected_agents` equal to the deduplicated union, over the successfully
deleted groups, of the agents whose membership changed, sorted ascending by
the numeric value of the agent identifier; and a failure deleting one group
does not prevent processing of the remaining groups. -/
theorem C9_delete_groups_affected_agents
    (delete_single_group : String → Except PyExc (List String))
    (remove_multi_group : String → Except PyExc Unit) (gl : List String)
    (hd1 : ∀ g, exNonRaw (delete_single_group g) = true)
    (hd2 : ∀ g, exNonRaw (remove_multi_group g) = true) :
    ∃ r, delete_groups delete_single_group remove_multi_group gl = .ok r ∧
      (∀ x, x ∈ r.affected_agents ↔
        ∃ g ∈ gl, ∃ removed, delete_single_group g = .ok removed ∧
          x ∈ removed) ∧
      r.affected_agents.Pairwise (fun a b => intKey a ≤ intKey b) ∧
      r.affected_agents.Nodup ∧
      (∀ g rest e, delete_single_group g = .error (.wazuh e) →
        ∃ r1 r2,
          delete_groups delete_single_group remove_multi_group (g :: rest)
            = .ok r1 ∧
          delete_groups delete_single_group remove_multi_group rest
            = .ok r2 ∧
          r1.affected_items = r2.affected_items ∧
          r1.failed_items = create_exception_dic g e :: r2.failed_items ∧
          r1.affected_agents = r2.affected_agents) := by
  refine ⟨_, delete_groups_eq delete_single_group remove_multi_group gl
    hd1 hd2, ?_, ?_, ?_, ?_⟩
  · intro x
    rw [mem_sortByKey, List.mem_dedup, List.mem_flatMap]
    constructor
    · rintro ⟨g, hg, hx⟩
      obtain ⟨v, hv, hxv⟩ := (mem_okListOf _ x).mp hx
      exact ⟨g, hg, v, hv, hxv⟩
    · rintro ⟨g, hg, v, hv, hxv⟩
      exact ⟨g, hg, (mem_okListOf _ x).mpr ⟨v, hv, hxv⟩⟩
  · exact sortByKey_sorted _
  · exact nodup_sortByKey _ (List.nodup_dedup _)
  · intro g rest e herr
    have hok : exIsOk (delete_single_group g) = false := by
      rw [herr]
      rfl
    have hfe : group_fail_entry delete_single_group remove_multi_group g
        = some (create_exception_dic g e) := by
      unfold group_fail_entry
      rw [herr]
    refine ⟨_, _, delete_groups_eq delete_single_group remove_multi_group
        (g :: rest) hd1 hd2,
      delete_groups_eq delete_single_group remove_multi_group rest hd1 hd2,
      ?_, ?_, ?_⟩
    · dsimp only
      simp [List.filter_cons, hok]
    · dsimp only
      rw [List.filterMap_cons, hfe]
    · dsimp only
      rw [List.flatMap_cons]
      have h0 : okListOf (delete_single_group g) = [] := by
        rw [herr]
        rfl
      rw [h0, List.nil_append]

/-- Witness for C9 at a concrete input: two groups whose deletions touch
overlapping agent sets. -/
theorem C9_delete_groups_affected_agents_witness :
    ∃ r, delete_groups
        (fun g => Except.ok (if g == "web" then ["003", "001"] else ["001"]))
        (fun _ => Except.ok ()) ["web", "db"] = .ok r ∧
      (∀ x, x ∈ r.affected_agents ↔
        ∃ g ∈ (["web", "db"] : List String), ∃ removed,
          Except.ok (if g == "web" then ["003", "001"] else ["001"])
            = Except.ok (ε := PyExc) removed ∧ x ∈ removed) ∧
      r.affected_agents.Pairwise (fun a b => intKey a ≤ intKey b) ∧
      r.affected_agents.Nodup ∧
      (∀ g rest (e : WazuhExc),
        Except.ok (if g == "web" then ["003", "001"] else ["001"])
          = Except.error (PyExc.wazuh e) →
        ∃ r1 r2,
          delete_groups (fun g => Except.ok
              (if g == "web" then ["003", "001"] else ["001"]))
            (fun _ => Except.ok ()) (g :: rest) = .ok r1 ∧
          delete_groups (fun g => Except.ok
              (if g == "web" then ["003", "001"] else ["001"]))
            (fun _ => Except.ok ()) rest = .ok r2 ∧
          r1.affected_items = r2.affected_items ∧
          r1.failed_items = create_exception_dic g e :: r2.failed_items ∧
          r1.affected_agents = r2.affected_agents) :=
  C9_delete_groups_affected_agents
    (fun g => Except.ok (if g == "web" then ["003", "001"] else ["001"]))
    (fun _ => Except.ok ()) ["web", "db"] (fun _ => rfl) (fun _ => rfl)

/-- C10: For every input list with more than one element, `upgrade_agents`,
`get_upgrade_result`, `get_agents_config` and `get_agents_sync_group` act
only on the first element of the list and silently ignore all remaining
elements: the call on `a :: rest` equals the call on `[a]` for every
`rest`, so the result depends solely on the first identifier. -/
theorem C10_first_element_only
    (upgrade : String → Option String → Option String → Bool → Option Nat →
      Bool → Except PyExc String)
    (upgrade_result : String → Nat → Except PyExc String)
    (load : String → Except PyExc AgentRecord)
    (getconfig : String → String → String → Except PyExc String)
    (get_basic_information : String → Except PyExc AgentInfo)
    (fs : String → Option String) (md5fn : String → String)
    (wpk_repo version : Option String) (force : Nat) (chunk_size : Option Nat)
    (use_http : Bool) (timeout : Nat) (component config : String)
    (shared_path multi_groups_path : String) (a : String)
    (rest : List String) :
    upgrade_agents upgrade wpk_repo version force chunk_size use_http
        (a :: rest)
      = upgrade_agents upgrade wpk_repo version force chunk_size use_http
        [a] ∧
    get_upgrade_result upgrade_result timeout (a :: rest)
      = get_upgrade_result upgrade_result timeout [a] ∧
    get_agents_config load getconfig component config (a :: rest)
      = get_agents_config load getconfig component config [a] ∧
    get_agents_sync_group get_basic_information fs md5fn shared_path
        multi_groups_path (a :: rest)
      = get_agents_sync_group get_basic_information fs md5fn shared_path
        multi_groups_path [a] :=
  ⟨rfl, rfl, rfl, rfl⟩
